import Mathlib

/-!
Shallow embedding of the `soulseer/admin-panel/readers` application
(`models.py` and `admin.py`): the three record types, the two save-time
external synchronization hooks, and the status-badge mapping.

Monetary `DecimalField(..., decimal_places=2)` values are represented by
their exact integer number of cents (`priceCents`, `chat_rateCents`, ...);
the corresponding decimal value is `cents / 100 : ℚ`.  Python `float(...)`
coercion of such a decimal is modelled as the exact rational it denotes.
External I/O (the Stripe client, `requests.post`, `print`) is modelled by
an explicit event trace together with an outcome parameter describing how
the external system behaves on this call.
-/

/-- `models.ReaderProfile` (models.py lines 4-63).  Field-for-field; the
optional image is an `Option` of its storage reference, `JSONField(default=list)`
specialties are a list of strings, and decimal fields are integer cents
(ratings are hundredths). -/
structure ReaderProfile where
  clerk_id : String
  email : String
  display_name : String
  bio : String
  profile_picture : Option String
  specialties : List String
  chat_rateCents : Int
  call_rateCents : Int
  video_rateCents : Int
  status : String
  is_online : Bool
  is_active : Bool
  total_earningsCents : Int
  pending_payoutCents : Int
  stripe_account_id : String
  average_ratingHundredths : Int
  total_reviews : Int
  created_at : Nat
  updated_at : Nat
deriving DecidableEq

/-- `models.Product` (models.py lines 66-95).  `stripe_product_id` is a
non-null `CharField(unique=True, blank=True)`: an unassigned identifier is
stored as the empty string.  `reader` is the id of the owning profile if
any, and `price` is integer cents. -/
structure Product where
  stripe_product_id : String
  name : String
  description : String
  product_type : String
  priceCents : Int
  reader : Option Nat
  inventory_count : Option Int
  is_active : Bool
  images : List String
  metadata : List (String × String)
  created_at : Nat
  updated_at : Nat
deriving DecidableEq

/-- `models.VirtualGift` (models.py lines 98-116). -/
structure VirtualGift where
  name : String
  description : String
  priceCents : Int
  icon_url : String
  animation_url : String
  is_active : Bool
  created_at : Nat
deriving DecidableEq

/-- The JSON body posted by `ReaderProfileAdmin.save_model` (admin.py
lines 62-71): rates are `float(obj.chat_rate)` etc., modelled as exact
rationals. -/
structure ReaderPayload where
  clerk_id : String
  email : String
  display_name : String
  bio : String
  specialties : List String
  chat_rate : ℚ
  call_rate : ℚ
  video_rate : ℚ
deriving DecidableEq

/-- Observable external effects of one admin save: Stripe API calls,
the backend provisioning POST, record persistence (`super().save_model`),
and `print` logging. -/
inductive Event where
  | stripeCreateProduct (name description : String)
  | stripeCreatePrice (productId : String) (unit_amount : Int) (currency : String)
  | backendPost (url : String) (body : ReaderPayload)
  | persistProduct (p : Product)
  | persistReader (r : ReaderProfile)
  | log (msg : String)
deriving DecidableEq

/-- The exact decimal value, in currency units, of an amount stored as
integer cents (`DecimalField(decimal_places=2)`). -/
def decValue (cents : Int) : ℚ := (cents : ℚ) / 100

/-- Python `float(...)` applied to a two-decimal-place amount, modelled as
the exact rational it denotes. -/
def pyFloat (cents : Int) : ℚ := (cents : ℚ) / 100

/-- Python `int(q)`: truncation toward zero. -/
def pyInt (q : ℚ) : Int := if 0 ≤ q then ⌊q⌋ else ⌈q⌉

/-- `int(obj.price * 100)` from admin.py line 123, with `obj.price` the
exact decimal `priceCents / 100`. -/
def unit_amount (priceCents : Int) : Int := pyInt (decValue priceCents * 100)

/-- Spec-side definition, for refinement only: "price rounded to the
nearest whole cent and multiplied by 100", i.e. the nearest integer to
`price * 100`. -/
def specMinorUnits (price : ℚ) : Int := round (price * 100)

/-- How the Stripe client behaves during one `ProductAdmin.save_model`
call: both calls succeed returning ids, `stripe.Product.create` raises, or
it succeeds and `stripe.Price.create` raises. -/
inductive StripeOutcome where
  | ok (productId priceId : String)
  | failProductCreate (msg : String)
  | failPriceCreate (productId : String) (msg : String)
deriving DecidableEq

/-- How `requests.post` behaves during one `ReaderProfileAdmin.save_model`
call: it returns a response with the given status code, or raises
(network error, timeout, any exception). -/
inductive BackendOutcome where
  | status (code : Int)
  | raiseExc (msg : String)
deriving DecidableEq

namespace ProductAdmin

/-- `ProductAdmin.save_model` (admin.py lines 107-131).  The Stripe block
runs first inside `try/except` and only when `obj.stripe_product_id` is
falsy (the empty string); on success it writes the created product id back
into the in-memory record; any exception is printed.  `super().save_model`
(persistence) runs unconditionally afterwards.  Returns the persisted
record together with the event trace in order. -/
def save_model (obj : Product) (stripe : StripeOutcome) : Product × List Event :=
  if obj.stripe_product_id = "" then
    match stripe with
    | .ok pid _priceId =>
        let obj2 := { obj with stripe_product_id := pid }
        (obj2,
         [Event.stripeCreateProduct obj.name obj.description,
          Event.stripeCreatePrice pid (unit_amount obj.priceCents) "usd",
          Event.persistProduct obj2])
    | .failProductCreate msg =>
        (obj,
         [Event.stripeCreateProduct obj.name obj.description,
          Event.log ("Error syncing with Stripe: " ++ msg),
          Event.persistProduct obj])
    | .failPriceCreate pid msg =>
        (obj,
         [Event.stripeCreateProduct obj.name obj.description,
          Event.stripeCreatePrice pid (unit_amount obj.priceCents) "usd",
          Event.log ("Error syncing with Stripe: " ++ msg),
          Event.persistProduct obj])
  else
    (obj, [Event.persistProduct obj])

end ProductAdmin

/-- A concrete product with no Stripe identifier yet and price 9.99. -/
def sampleProduct : Product :=
  { stripe_product_id := ""
    name := "Tarot Reading"
    description := "A 30 minute tarot reading"
    product_type := "service"
    priceCents := 999
    reader := none
    inventory_count := none
    is_active := true
    images := []
    metadata := []
    created_at := 100
    updated_at := 100 }

/-- A concrete product whose Stripe identifier is already assigned. -/
def syncedProduct : Product :=
  { sampleProduct with stripe_product_id := "prod_ABC" }

namespace ReaderProfileAdmin

/-- The JSON body built in `ReaderProfileAdmin.save_model` (admin.py
lines 62-71). -/
def readerPayload (obj : ReaderProfile) : ReaderPayload :=
  { clerk_id := obj.clerk_id
    email := obj.email
    display_name := obj.display_name
    bio := obj.bio
    specialties := obj.specialties
    chat_rate := pyFloat obj.chat_rateCents
    call_rate := pyFloat obj.call_rateCents
    video_rate := pyFloat obj.video_rateCents }

/-- `ReaderProfileAdmin.save_model` (admin.py lines 51-76).
`super().save_model` (persistence) runs first; then, only when `change`
is false (a new record), `requests.post` is issued inside `try/except`;
a 201 response prints a success line, any exception from the call prints
an error line, and any other status code does nothing further. -/
def save_model (obj : ReaderProfile) (change : Bool) (backend_url : String)
    (backend : BackendOutcome) : List Event :=
  Event.persistReader obj ::
    if change then []
    else
      match backend with
      | .status code =>
          Event.backendPost (backend_url ++ "/api/admin/readers") (readerPayload obj) ::
            if code = 201 then
              [Event.log ("Reader " ++ obj.display_name ++ " synced with backend")]
            else []
      | .raiseExc msg =>
          [Event.backendPost (backend_url ++ "/api/admin/readers") (readerPayload obj),
           Event.log ("Error syncing reader with backend: " ++ msg)]

/-- `ReaderProfileAdmin.status_badge` colour choice (admin.py lines 38-48):
`colors.get(obj.status, 'gray')` over the literal `colors` dict. -/
def colors : List (String × String) :=
  [("online", "green"), ("offline", "gray"), ("busy", "orange")]

/-- The colour `colors.get(status, 'gray')` rendered into the badge. -/
def status_badge_color (status : String) : String :=
  match colors.find? (fun kv => kv.1 == status) with
  | some kv => kv.2
  | none => "gray"

end ReaderProfileAdmin

/-- A concrete reader profile. -/
def sampleReader : ReaderProfile :=
  { clerk_id := "clerk_1"
    email := "luna@example.com"
    display_name := "Luna"
    bio := "Certified tarot reader"
    profile_picture := none
    specialties := ["tarot", "astrology"]
    chat_rateCents := 299
    call_rateCents := 399
    video_rateCents := 499
    status := "offline"
    is_online := false
    is_active := true
    total_earningsCents := 0
    pending_payoutCents := 0
    stripe_account_id := ""
    average_ratingHundredths := 0
    total_reviews := 0
    created_at := 50
    updated_at := 50 }

/-- `ReaderProfile.Meta.ordering = ['-created_at']` (models.py line 58):
listings present readers newest-first. -/
def readerListing (l : List ReaderProfile) : List ReaderProfile :=
  List.insertionSort (fun a b => b.created_at ≤ a.created_at) l

/-- `Product.Meta.ordering = ['-created_at']` (models.py line 90):
listings present products newest-first. -/
def productListing (l : List Product) : List Product :=
  List.insertionSort (fun a b => b.created_at ≤ a.created_at) l

/-- `VirtualGift.Meta.ordering = ['price']` (models.py line 111): listings
present gifts cheapest-first. -/
def giftListing (l : List VirtualGift) : List VirtualGift :=
  List.insertionSort (fun a b => a.priceCents ≤ b.priceCents) l

/-- Storage-layer admission of a new `Product` row under
`stripe_product_id = models.CharField(max_length=255, unique=True, blank=True)`
(models.py line 75): the field is non-null, a blank value is stored as the
empty string, and the UNIQUE constraint compares stored values, so the
empty string participates in it. -/
def productInsert (rows : List Product) (p : Product) : Option (List Product) :=
  if rows.any (fun q => q.stripe_product_id == p.stripe_product_id) then none
  else some (rows ++ [p])

/-- A second product, distinct from `sampleProduct`, also with no Stripe
identifier (as persisted after a failed Stripe sync). -/
def sampleProduct2 : Product :=
  { sampleProduct with name := "Crystal Healing", created_at := 200, updated_at := 200 }

/-- Whether an event is a `print` log line. -/
def isLog : Event → Bool
  | .log _ => true
  | _ => false

/-- `decValue cents * 100` is exactly the integer `cents`. -/
theorem decValue_mul_hundred (cents : Int) : decValue cents * 100 = (cents : ℚ) := by
  unfold decValue
  exact div_mul_cancel₀ (cents : ℚ) (by norm_num)

/-- Python truncation applied to an exact integer is that integer. -/
theorem pyInt_intCast (n : Int) : pyInt (n : ℚ) = n := by
  unfold pyInt
  split <;> simp

/-- `int(price * 100)` over a two-decimal-place price is the price in cents. -/
theorem unit_amount_eq_cents (cents : Int) : unit_amount cents = cents := by
  unfold unit_amount
  rw [decValue_mul_hundred, pyInt_intCast]

/-- The spec's "round to the nearest whole cent and multiply by 100"
applied to a two-decimal-place price is also the price in cents. -/
theorem specMinorUnits_decValue (cents : Int) : specMinorUnits (decValue cents) = cents := by
  unfold specMinorUnits
  rw [decValue_mul_hundred, round_intCast]

/-- C1: on a Product save with no external payment-product identifier, the
Stripe sync hook runs before persistence: it creates a product resource
(name, description), then a price resource, and on success writes the
created product id into the in-memory record, which is then the record
persisted; moreover, for every Stripe outcome the persistence step is the
last event and persists the hook's resulting record. -/
theorem claim_C1_product_sync_before_persist (obj : Product) (pid prid : String)
    (h : obj.stripe_product_id = "") :
    ProductAdmin.save_model obj (.ok pid prid) =
      ({ obj with stripe_product_id := pid },
       [Event.stripeCreateProduct obj.name obj.description,
        Event.stripeCreatePrice pid (unit_amount obj.priceCents) "usd",
        Event.persistProduct { obj with stripe_product_id := pid }]) ∧
    ∀ stripe : StripeOutcome,
      (ProductAdmin.save_model obj stripe).2.getLast? =
        some (Event.persistProduct (ProductAdmin.save_model obj stripe).1) := by
  constructor
  · simp [ProductAdmin.save_model, h]
  · intro stripe
    cases stripe <;> simp [ProductAdmin.save_model, h]

/-- C1 witness: saving the concrete `sampleProduct` with a successful
Stripe outcome creates product and price and persists the record carrying
the new id. -/
theorem claim_C1_witness :
    ProductAdmin.save_model sampleProduct (.ok "prod_N" "price_N") =
      ({ sampleProduct with stripe_product_id := "prod_N" },
       [Event.stripeCreateProduct "Tarot Reading" "A 30 minute tarot reading",
        Event.stripeCreatePrice "prod_N" 999 "usd",
        Event.persistProduct { sampleProduct with stripe_product_id := "prod_N" }]) := by
  have h := (claim_C1_product_sync_before_persist sampleProduct "prod_N" "price_N" rfl).1
  simpa [sampleProduct, unit_amount_eq_cents] using h

/-- C3: when the Stripe call raises (either call), the failure is logged,
the identifier remains unset, the record is persisted with all its
submitted fields unchanged, and the hook returns normally with persistence
as its final event. -/
theorem claim_C3_stripe_failure_swallowed (obj : Product) (msg : String)
    (h : obj.stripe_product_id = "") :
    ProductAdmin.save_model obj (.failProductCreate msg) =
      (obj,
       [Event.stripeCreateProduct obj.name obj.description,
        Event.log ("Error syncing with Stripe: " ++ msg),
        Event.persistProduct obj]) ∧
    ∀ pid, ProductAdmin.save_model obj (.failPriceCreate pid msg) =
      (obj,
       [Event.stripeCreateProduct obj.name obj.description,
        Event.stripeCreatePrice pid (unit_amount obj.priceCents) "usd",
        Event.log ("Error syncing with Stripe: " ++ msg),
        Event.persistProduct obj]) := by
  constructor
  · simp [ProductAdmin.save_model, h]
  · intro pid
    simp [ProductAdmin.save_model, h]

/-- C3 witness: a failing Stripe product creation on the concrete
`sampleProduct` logs the error and still persists the unchanged record. -/
theorem claim_C3_witness :
    ProductAdmin.save_model sampleProduct (.failProductCreate "boom") =
      (sampleProduct,
       [Event.stripeCreateProduct "Tarot Reading" "A 30 minute tarot reading",
        Event.log "Error syncing with Stripe: boom",
        Event.persistProduct sampleProduct]) := by
  have h := (claim_C3_stripe_failure_swallowed sampleProduct "boom" rfl).1
  simpa [sampleProduct] using h

/-- C4: when the Product already carries a Stripe identifier, saving makes
no external call whatever the external system would do, and persists the
record unchanged — so a Product is synced to the external catalog at most
once. -/
theorem claim_C4_noop_when_id_present (obj : Product) (stripe : StripeOutcome)
    (h : obj.stripe_product_id ≠ "") :
    ProductAdmin.save_model obj stripe = (obj, [Event.persistProduct obj]) := by
  simp [ProductAdmin.save_model, h]

/-- C4 witness: saving the already-synced concrete product performs no
Stripe call and leaves it unchanged. -/
theorem claim_C4_witness :
    ProductAdmin.save_model syncedProduct (.ok "prod_OTHER" "price_OTHER") =
      (syncedProduct, [Event.persistProduct syncedProduct]) :=
  claim_C4_noop_when_id_present syncedProduct (.ok "prod_OTHER" "price_OTHER") (by decide)

/-- C5: the unit amount sent to Stripe equals the spec's "price rounded to
the nearest whole cent times 100" (both are the price in cents); a 9.99
price yields 999; and the price-creation call in a successful sync carries
exactly that unit amount with currency "usd". -/
theorem claim_C5_unit_amount_minor_units :
    (∀ cents : Int, unit_amount cents = specMinorUnits (decValue cents)) ∧
    unit_amount 999 = 999 ∧
    decValue 999 = 999 / 100 ∧
    (∀ (obj : Product) (pid prid : String), obj.stripe_product_id = "" →
      (ProductAdmin.save_model obj (.ok pid prid)).2[1]? =
        some (Event.stripeCreatePrice pid (unit_amount obj.priceCents) "usd")) := by
  refine ⟨fun cents => ?_, unit_amount_eq_cents 999, rfl, fun obj pid prid h => ?_⟩
  · rw [unit_amount_eq_cents, specMinorUnits_decValue]
  · simp [ProductAdmin.save_model, h]

/-- C5 witness: the concrete 9.99 product's successful sync issues a price
creation with unit amount 999 and currency "usd". -/
theorem claim_C5_witness :
    (ProductAdmin.save_model sampleProduct (.ok "prod_N2" "price_N2")).2[1]? =
      some (Event.stripeCreatePrice "prod_N2" 999 "usd") := by
  have h := claim_C5_unit_amount_minor_units.2.2.2 sampleProduct "prod_N2" "price_N2" rfl
  simpa [sampleProduct, unit_amount_eq_cents] using h

/-- C10: if Stripe product creation succeeds but price creation raises,
the local record's identifier stays unset even though the product-creation
call was issued downstream, and the save still completes by persisting the
unchanged record. -/
theorem claim_C10_price_failure_leaves_id_unset (obj : Product) (pid msg : String)
    (h : obj.stripe_product_id = "") :
    (ProductAdmin.save_model obj (.failPriceCreate pid msg)).1.stripe_product_id = "" ∧
    (ProductAdmin.save_model obj (.failPriceCreate pid msg)).2 =
      [Event.stripeCreateProduct obj.name obj.description,
       Event.stripeCreatePrice pid (unit_amount obj.priceCents) "usd",
       Event.log ("Error syncing with Stripe: " ++ msg),
       Event.persistProduct obj] := by
  constructor <;> simp [ProductAdmin.save_model, h]

/-- C10 witness: on the concrete product, a price-creation failure after a
successful product creation leaves the identifier empty and persists the
record. -/
theorem claim_C10_witness :
    (ProductAdmin.save_model sampleProduct (.failPriceCreate "prod_ORPHAN" "bad request")).1.stripe_product_id = "" ∧
    (ProductAdmin.save_model sampleProduct (.failPriceCreate "prod_ORPHAN" "bad request")).2 =
      [Event.stripeCreateProduct "Tarot Reading" "A 30 minute tarot reading",
       Event.stripeCreatePrice "prod_ORPHAN" 999 "usd",
       Event.log "Error syncing with Stripe: bad request",
       Event.persistProduct sampleProduct] := by
  have h := claim_C10_price_failure_leaves_id_unset sampleProduct "prod_ORPHAN" "bad request" rfl
  simpa [sampleProduct, unit_amount_eq_cents] using h

/-- C2: on a new Reader Profile (`change = false`) the hook runs exactly
once, immediately after persistence, posting a single creation request
whose body carries the external-account identifier, email, display name,
biography, specialties, and the three per-minute rates as (exact)
floating-point values; on an edit (`change = true`) no request is issued
whatever the backend would do. -/
theorem claim_C2_reader_provisioning_once_on_create (obj : ReaderProfile)
    (url : String) (code : Int) :
    ReaderProfileAdmin.save_model obj false url (.status code) =
      Event.persistReader obj ::
        Event.backendPost (url ++ "/api/admin/readers")
          (ReaderProfileAdmin.readerPayload obj) ::
          (if code = 201 then
            [Event.log ("Reader " ++ obj.display_name ++ " synced with backend")]
          else []) ∧
    ReaderProfileAdmin.readerPayload obj =
      { clerk_id := obj.clerk_id
        email := obj.email
        display_name := obj.display_name
        bio := obj.bio
        specialties := obj.specialties
        chat_rate := pyFloat obj.chat_rateCents
        call_rate := pyFloat obj.call_rateCents
        video_rate := pyFloat obj.video_rateCents } ∧
    ∀ backend : BackendOutcome,
      ReaderProfileAdmin.save_model obj true url backend = [Event.persistReader obj] :=
  ⟨rfl, rfl, fun _ => rfl⟩

/-- C6 counterexample: a 500 response is a non-created status, yet the
concrete trace contains no log event at all — the code only prints on 201
and `requests.post` does not raise on a bad status, so this failure is not
logged, contrary to the claim. -/
theorem claim_C6_counterexample :
    (500 : Int) ≠ 201 ∧
    ReaderProfileAdmin.save_model sampleReader false "http://localhost:5000" (.status 500) =
      [Event.persistReader sampleReader,
       Event.backendPost "http://localhost:5000/api/admin/readers"
         (ReaderProfileAdmin.readerPayload sampleReader)] ∧
    (ReaderProfileAdmin.save_model sampleReader false "http://localhost:5000"
        (.status 500)).countP isLog = 0 :=
  ⟨by decide, rfl, rfl⟩

/-- C6 amended: when the provisioning call raises (network error, timeout,
any exception) the failure is logged and the persisted save is kept; when
the call returns a non-201 status nothing is logged — the response is
silently ignored — and the persisted save is likewise kept; in no case is
an error surfaced to the administrator. -/
theorem claim_C6_amended_failure_handling (obj : ReaderProfile)
    (url msg : String) (code : Int) :
    ReaderProfileAdmin.save_model obj false url (.raiseExc msg) =
      [Event.persistReader obj,
       Event.backendPost (url ++ "/api/admin/readers")
         (ReaderProfileAdmin.readerPayload obj),
       Event.log ("Error syncing reader with backend: " ++ msg)] ∧
    (code ≠ 201 →
      ReaderProfileAdmin.save_model obj false url (.status code) =
        [Event.persistReader obj,
         Event.backendPost (url ++ "/api/admin/readers")
           (ReaderProfileAdmin.readerPayload obj)]) := by
  refine ⟨rfl, fun h => ?_⟩
  simp [ReaderProfileAdmin.save_model, h]

/-- C6 witness: a concrete 404 response leaves a two-event trace — the
record persisted and the request issued, nothing logged, nothing raised. -/
theorem claim_C6_witness :
    ReaderProfileAdmin.save_model sampleReader false "http://localhost:5000" (.status 404) =
      [Event.persistReader sampleReader,
       Event.backendPost "http://localhost:5000/api/admin/readers"
         (ReaderProfileAdmin.readerPayload sampleReader)] :=
  (claim_C6_amended_failure_handling sampleReader "http://localhost:5000" "x" 404).2
    (by decide)

/-- C7 (code at the failing input): `stripe_product_id` is declared
`CharField(unique=True, blank=True)` with no `null=True`, so an unassigned
identifier is stored as the empty string and participates in the UNIQUE
constraint: the first record with a blank identifier is admitted, but a
second, otherwise distinct record with a blank identifier is rejected by
the storage layer — contradicting "any number of Products may exist
without one". -/
theorem claim_C7_blank_id_unique_violation :
    sampleProduct.stripe_product_id = "" ∧
    sampleProduct2.stripe_product_id = "" ∧
    sampleProduct ≠ sampleProduct2 ∧
    productInsert [] sampleProduct = some [sampleProduct] ∧
    productInsert [sampleProduct] sampleProduct2 = none :=
  ⟨rfl, rfl, by decide, rfl, rfl⟩

/-- C8: listings follow the model `Meta` orderings — Reader Profiles and
Products newest-first by creation time, Virtual Gifts cheapest-first by
price — and each listing is a permutation of the stored records. -/
theorem claim_C8_listing_order :
    (∀ l : List ReaderProfile,
      List.Sorted (fun a b => b.created_at ≤ a.created_at) (readerListing l) ∧
      (readerListing l).Perm l) ∧
    (∀ l : List Product,
      List.Sorted (fun a b => b.created_at ≤ a.created_at) (productListing l) ∧
      (productListing l).Perm l) ∧
    (∀ l : List VirtualGift,
      List.Sorted (fun a b => a.priceCents ≤ b.priceCents) (giftListing l) ∧
      (giftListing l).Perm l) := by
  refine ⟨fun l => ⟨?_, ?_⟩, fun l => ⟨?_, ?_⟩, fun l => ⟨?_, ?_⟩⟩
  · haveI : IsTotal ReaderProfile (fun a b => b.created_at ≤ a.created_at) :=
      ⟨fun a b => le_total b.created_at a.created_at⟩
    haveI : IsTrans ReaderProfile (fun a b => b.created_at ≤ a.created_at) :=
      ⟨fun _ _ _ h1 h2 => le_trans h2 h1⟩
    exact List.sorted_insertionSort _ l
  · exact List.perm_insertionSort _ l
  · haveI : IsTotal Product (fun a b => b.created_at ≤ a.created_at) :=
      ⟨fun a b => le_total b.created_at a.created_at⟩
    haveI : IsTrans Product (fun a b => b.created_at ≤ a.created_at) :=
      ⟨fun _ _ _ h1 h2 => le_trans h2 h1⟩
    exact List.sorted_insertionSort _ l
  · exact List.perm_insertionSort _ l
  · haveI : IsTotal VirtualGift (fun a b => a.priceCents ≤ b.priceCents) :=
      ⟨fun a b => le_total a.priceCents b.priceCents⟩
    haveI : IsTrans VirtualGift (fun a b => a.priceCents ≤ b.priceCents) :=
      ⟨fun _ _ _ h1 h2 => le_trans h1 h2⟩
    exact List.sorted_insertionSort _ l
  · exact List.perm_insertionSort _ l

/-- C9: the badge colour is a pure mapping of the status value — online to
green, offline to gray, busy to orange, and every other value to the
default gray. -/
theorem claim_C9_status_badge_colors :
    ReaderProfileAdmin.status_badge_color "online" = "green" ∧
    ReaderProfileAdmin.status_badge_color "offline" = "gray" ∧
    ReaderProfileAdmin.status_badge_color "busy" = "orange" ∧
    ∀ s : String, s ≠ "online" → s ≠ "offline" → s ≠ "busy" →
      ReaderProfileAdmin.status_badge_color s = "gray" := by
  refine ⟨rfl, rfl, rfl, fun s h1 h2 h3 => ?_⟩
  have e1 : ("online" == s) = false := beq_eq_false_iff_ne.mpr (Ne.symm h1)
  have e2 : ("offline" == s) = false := beq_eq_false_iff_ne.mpr (Ne.symm h2)
  have e3 : ("busy" == s) = false := beq_eq_false_iff_ne.mpr (Ne.symm h3)
  unfold ReaderProfileAdmin.status_badge_color ReaderProfileAdmin.colors
  simp [List.find?, e1, e2, e3]

/-- C9 witness: an unknown status value falls back to gray. -/
theorem claim_C9_witness :
    ReaderProfileAdmin.status_badge_color "unknown-value" = "gray" :=
  claim_C9_status_badge_colors.2.2.2 "unknown-value" (by decide) (by decide) (by decide)
